import Mathlib

/-! The X3F container header `x3f_io.h`

A shallow embedding of the constants, enumerations and record layouts that
`src/x3f_io.h` declares, together with the properties of them that the
container specification relies on.  A `uint32_t` constant is a natural
number; the cast `(uint32_t)(e)` is reduction modulo `2 ^ 32`.
-/

namespace X3F

/-! ## Machine integers -/

/-- The cast `(uint32_t)(e)`: reduction modulo `2 ^ 32`. -/
def uint32_t (e : Nat) : Nat := e % 2 ^ 32

/-- Modelled from the spec: the byte reader's little-endian 32-bit read, whose
code is not part of the header.  The four bytes are given in file order, the
first one being the least significant. -/
def le32 (b0 b1 b2 b3 : Nat) : Nat :=
  b0 + b1 * 2 ^ 8 + b2 * 2 ^ 16 + b3 * 2 ^ 24

/-- The little-endian 32-bit integer of a four character ASCII tag. -/
def tag32 (c0 c1 c2 c3 : Char) : Nat :=
  le32 c0.toNat c1.toNat c2.toNat c3.toNat

/-- The little-endian 32-bit integer of a three character ASCII tag followed by
a zero byte. -/
def tag24 (c0 c1 c2 : Char) : Nat :=
  le32 c0.toNat c1.toNat c2.toNat 0

/-! ## Sizes (lines 26-28) -/

def SIZE_UNIQUE_IDENTIFIER : Nat := 16
def SIZE_WHITE_BALANCE : Nat := 32
def NUM_EXT_DATA : Nat := 32

/-! ## Versions (lines 30-32) -/

/-- The macro `X3F_VERSION(MAJ,MIN)`, that is `(uint32_t)(((MAJ)<<16) + MIN)`. -/
def X3F_VERSION (MAJ MIN : Nat) : Nat := uint32_t ((MAJ <<< 16) + MIN)

def X3F_VERSION_2_0 : Nat := X3F_VERSION 2 0
def X3F_VERSION_2_1 : Nat := X3F_VERSION 2 1

/-! ## Identifiers (lines 34-52) -/

/-- Main file identifier. -/
def X3F_FOVb : Nat := uint32_t 0x62564f46
/-- Directory identifier. -/
def X3F_SECd : Nat := uint32_t 0x64434553
/-- Property section identifiers. -/
def X3F_PROP : Nat := uint32_t 0x504f5250
def X3F_SECp : Nat := uint32_t 0x70434553
/-- Image section identifiers. -/
def X3F_IMAG : Nat := uint32_t 0x46414d49
def X3F_IMA2 : Nat := uint32_t 0x32414d49
def X3F_SECi : Nat := uint32_t 0x69434553
/-- CAMF identifiers. -/
def X3F_CAMF : Nat := uint32_t 0x464d4143
def X3F_SECc : Nat := uint32_t 0x63434553
/-- CAMF entry identifiers. -/
def X3F_CMbP : Nat := uint32_t 0x50624d43
def X3F_CMbT : Nat := uint32_t 0x54624d43
def X3F_CMbM : Nat := uint32_t 0x4d624d43
def X3F_CMb : Nat := uint32_t 0x00624d43

/-- Every identifier the header defines, in the order of definition. -/
def identifiers : List Nat :=
  [X3F_FOVb, X3F_SECd, X3F_PROP, X3F_SECp, X3F_IMAG, X3F_IMA2, X3F_SECi,
   X3F_CAMF, X3F_SECc, X3F_CMbP, X3F_CMbT, X3F_CMbM, X3F_CMb]

/-! ## Image type and format tags (lines 54-62) -/

def X3F_IMAGE_THUMB_PLAIN : Nat := uint32_t 0x00020003
def X3F_IMAGE_THUMB_HUFFMAN : Nat := uint32_t 0x0002000b
def X3F_IMAGE_THUMB_JPEG : Nat := uint32_t 0x00020012

def X3F_IMAGE_RAW_HUFFMAN_X530 : Nat := uint32_t 0x00030005
def X3F_IMAGE_RAW_HUFFMAN_10BIT : Nat := uint32_t 0x00030006
def X3F_IMAGE_RAW_TRUE : Nat := uint32_t 0x0003001e
def X3F_IMAGE_RAW_MERRILL : Nat := uint32_t 0x0001001e
def X3F_IMAGE_RAW_QUATTRO : Nat := uint32_t 0x00010023

/-- Every `X3F_IMAGE_*` tag the header defines, in the order of definition. -/
def image_tags : List Nat :=
  [X3F_IMAGE_THUMB_PLAIN, X3F_IMAGE_THUMB_HUFFMAN, X3F_IMAGE_THUMB_JPEG,
   X3F_IMAGE_RAW_HUFFMAN_X530, X3F_IMAGE_RAW_HUFFMAN_10BIT, X3F_IMAGE_RAW_TRUE,
   X3F_IMAGE_RAW_MERRILL, X3F_IMAGE_RAW_QUATTRO]

/-- The field `type_format` of `x3f_image_data_t`, documented at line 200 as
the type shifted left by sixteen plus the format, held in a `uint32_t`. -/
def type_format (type format : Nat) : Nat := uint32_t ((type <<< 16) + format)

/-- The type and format pairs of the data model of the specification, in the
order the specification lists them. -/
def spec_type_format_pairs : List (Nat × Nat) :=
  [(2, 3), (2, 11), (2, 18), (3, 6), (1, 30), (1, 35), (3, 5)]

/-- The tags of the pairs of the specification. -/
def spec_image_tags : List Nat :=
  spec_type_format_pairs.map (fun p => type_format p.1 p.2)

/-! ## Section header sizes (lines 64-66) -/

def X3F_IMAGE_HEADER_SIZE : Nat := 28
def X3F_CAMF_HEADER_SIZE : Nat := 28
def X3F_PROPERTY_LIST_HEADER_SIZE : Nat := 24

/-! ## Enumerations -/

/-- The enumeration `x3f_extended_types_t` (lines 72-84). -/
inductive x3f_extended_types_t
  | X3F_EXT_TYPE_NONE
  | X3F_EXT_TYPE_EXPOSURE_ADJUST
  | X3F_EXT_TYPE_CONTRAST_ADJUST
  | X3F_EXT_TYPE_SHADOW_ADJUST
  | X3F_EXT_TYPE_HIGHLIGHT_ADJUST
  | X3F_EXT_TYPE_SATURATION_ADJUST
  | X3F_EXT_TYPE_SHARPNESS_ADJUST
  | X3F_EXT_TYPE_RED_ADJUST
  | X3F_EXT_TYPE_GREEN_ADJUST
  | X3F_EXT_TYPE_BLUE_ADJUST
  | X3F_EXT_TYPE_FILL_LIGHT_ADJUST
deriving DecidableEq, Repr, Fintype

/-- The integer value the header assigns to each extended-data type tag. -/
def x3f_extended_types_t.val : x3f_extended_types_t → Nat
  | X3F_EXT_TYPE_NONE => 0
  | X3F_EXT_TYPE_EXPOSURE_ADJUST => 1
  | X3F_EXT_TYPE_CONTRAST_ADJUST => 2
  | X3F_EXT_TYPE_SHADOW_ADJUST => 3
  | X3F_EXT_TYPE_HIGHLIGHT_ADJUST => 4
  | X3F_EXT_TYPE_SATURATION_ADJUST => 5
  | X3F_EXT_TYPE_SHARPNESS_ADJUST => 6
  | X3F_EXT_TYPE_RED_ADJUST => 7
  | X3F_EXT_TYPE_GREEN_ADJUST => 8
  | X3F_EXT_TYPE_BLUE_ADJUST => 9
  | X3F_EXT_TYPE_FILL_LIGHT_ADJUST => 10

/-- The enumeration `x3f_return_t` (lines 401-407). -/
inductive x3f_return_t
  | X3F_OK
  | X3F_ARGUMENT_ERROR
  | X3F_INFILE_ERROR
  | X3F_OUTFILE_ERROR
  | X3F_INTERNAL_ERROR
deriving DecidableEq, Repr, Fintype

/-- The integer value the header assigns to each result code. -/
def x3f_return_t.val : x3f_return_t → Nat
  | X3F_OK => 0
  | X3F_ARGUMENT_ERROR => 1
  | X3F_INFILE_ERROR => 2
  | X3F_OUTFILE_ERROR => 3
  | X3F_INTERNAL_ERROR => 4

/-- The error kinds of the taxonomy of the specification (its section 7), one
constructor per bullet; this type follows the words of the specification and
has no counterpart in the header. -/
inductive SpecErrorKind
  | TruncatedInput
  | MalformedHeader
  | UnsupportedVersion
  | MalformedSection
  | MalformedTable
  | UnexpectedEndOfStream
  | CipherInconsistency
  | MalformedPropertyOrCamfEntry
  | IoError
deriving DecidableEq, Repr, Fintype

/-! ## Record declarations

A record is the list of its members in declaration order.  A member carries its
name, its C type, its array length (`1` for a scalar) and whether the header
presents it as a field read from the file rather than computed help data. -/

/-- The C types of the members of the records below. -/
inductive CType
  | uint8_t
  | uint16_t
  | uint32_t
  | char
  | float
  | pointer
  | aggregate (tag : String)
deriving DecidableEq, Repr

/-- Width in bytes of a scalar type whose width the header fixes; pointers and
nested aggregates have none here. -/
def CType.bytes : CType → Option Nat
  | .uint8_t => some 1
  | .uint16_t => some 2
  | .uint32_t => some 4
  | .char => some 1
  | .float => some 4
  | .pointer => none
  | .aggregate _ => none

structure Member where
  name : String
  type : CType
  count : Nat
  from_file : Bool
deriving DecidableEq, Repr

/-- A scalar `uint32_t` member that is read from the file. -/
def word (name : String) : Member := ⟨name, .uint32_t, 1, true⟩

/-- A member that the library computes or allocates. -/
def help (name : String) (type : CType) : Member := ⟨name, type, 1, false⟩

/-- Bytes taken by a member, when its type has a fixed width. -/
def Member.bytes (m : Member) : Option Nat := m.type.bytes.map (· * m.count)

/-- Round `off` up to the next multiple of `a`. -/
def alignUp (off a : Nat) : Nat := (off + a - 1) / a * a

/-- Byte offsets of the members of a record of fixed-width members, each member
placed at the first offset after its predecessor that is a multiple of its own
element width. -/
def offsetsFrom : Nat → List Member → List (String × Nat)
  | _, [] => []
  | off, m :: ms =>
    match m.type.bytes with
    | none => []
    | some w =>
      let o := alignUp off w
      (m.name, o) :: offsetsFrom (o + w * m.count) ms

def offsets (s : List Member) : List (String × Nat) := offsetsFrom 0 s

/-- The byte offset of the member `name` in the record `s`. -/
def offsetof (s : List Member) (name : String) : Option Nat :=
  (offsets s).lookup name

/-- The index of the 32-bit word at which the member `name` of `s` starts. -/
def wordof (s : List Member) (name : String) : Option Nat :=
  (offsetof s name).bind (fun o => if o % 4 = 0 then some (o / 4) else none)

/-- The names of the members of a record, in declaration order. -/
def names (s : List Member) : List String := s.map (·.name)

/-- The members the header presents as read from the file. -/
def file_fields (s : List Member) : List Member := s.filter (·.from_file)

/-- The members read from the file that are scalar 32-bit fields. -/
def file_words (s : List Member) : List Member :=
  (file_fields s).filter (fun m => m.type = .uint32_t ∧ m.count = 1)

/-- The record `x3f_property_list_t` (lines 103-116). -/
def x3f_property_list_t : List Member :=
  [word "num_properties", word "character_format", word "reserved",
   word "total_length",
   help "property_table" (.aggregate "x3f_property_table_t"),
   help "data" .pointer,
   help "data_size" .uint32_t]

/-- The record `x3f_image_data_t` (lines 188-217).  The member `type_format` is
the one the header comments as computed from `type` and `format`. -/
def x3f_image_data_t : List Member :=
  [word "type", word "format",
   help "type_format" .uint32_t,
   word "columns", word "rows", word "row_stride",
   help "huffman" .pointer, help "tru" .pointer, help "quattro" .pointer,
   help "data" .pointer,
   help "data_size" .uint32_t]

/-- The record `x3f_camf_typeN_t` (lines 278-283). -/
def x3f_camf_typeN_t : List Member :=
  [word "val0", word "val1", word "val2", word "val3"]

/-- The record `x3f_camf_type2_t` (lines 285-290). -/
def x3f_camf_type2_t : List Member :=
  [word "reserved", word "infotype", word "infotype_version", word "crypt_key"]

/-- The record `x3f_camf_type4_t` (lines 292-297). -/
def x3f_camf_type4_t : List Member :=
  [word "decoded_data_size", word "decode_bias", word "block_size",
   word "block_count"]

/-- The record `x3f_camf_type5_t` (lines 299-304). -/
def x3f_camf_type5_t : List Member :=
  [word "decoded_data_size", word "decode_bias", word "unknown2",
   word "unknown3"]

/-- The alternatives of the anonymous union of `x3f_camf_t` (lines 310-315);
every alternative of a union starts at offset zero of the union. -/
def x3f_camf_header_union : List (String × List Member) :=
  [("tN", x3f_camf_typeN_t), ("t2", x3f_camf_type2_t),
   ("t4", x3f_camf_type4_t), ("t5", x3f_camf_type5_t)]

/-- The record `x3f_camf_t` (lines 306-333); the anonymous union is the member
of type `aggregate "union"`. -/
def x3f_camf_t : List Member :=
  [word "type",
   ⟨"tN|t2|t4|t5", .aggregate "union", 1, true⟩,
   help "data" .pointer,
   help "data_size" .uint32_t,
   help "table" (.aggregate "x3f_true_huffman_t"),
   help "tree" (.aggregate "x3f_hufftree_t"),
   help "decoding_start" .pointer,
   help "decoding_size" .uint32_t,
   help "decoded_data" .pointer,
   help "decoded_data_size" .uint32_t,
   help "entry_table" (.aggregate "camf_entry_table_t")]

/-- The record `x3f_directory_entry_header_t` (lines 335-343): the two fields
common to every section, then the union of the three section kinds. -/
def x3f_directory_entry_header_t : List Member :=
  [word "identifier", word "version",
   ⟨"data_subsection", .aggregate "union", 1, true⟩]

/-- The record `x3f_header_t` (lines 365-379). -/
def x3f_header_t : List Member :=
  [word "identifier", word "version",
   ⟨"unique_identifier", .uint8_t, SIZE_UNIQUE_IDENTIFIER, true⟩,
   word "mark_bits", word "columns", word "rows", word "rotation",
   ⟨"white_balance", .char, SIZE_WHITE_BALANCE, true⟩,
   ⟨"extended_types", .uint8_t, NUM_EXT_DATA, true⟩,
   ⟨"extended_data", .float, NUM_EXT_DATA, true⟩]

/-- The member `name` of the record `s`. -/
def member (s : List Member) (name : String) : Option Member :=
  s.find? (fun m => m.name = name)

/-- The member of `x3f_camf_typeN_t` that starts at the same offset as the
member `name` of the alternative `s` of the union. -/
def overlaid (s : List Member) (name : String) : Option String :=
  (offsetof s name).bind (fun o =>
    ((offsets x3f_camf_typeN_t).find? (fun p => p.2 = o)).map (·.1))

/-- Bytes of a record of fixed-width members: the end of its last member. -/
def record_bytes (s : List Member) : Nat :=
  ((offsets s).zip s).foldl (fun acc p => max acc (p.1.2 + (p.2.bytes.getD 0))) 0

/-- Bytes of a union: the size of its largest alternative. -/
def union_bytes (u : List (String × List Member)) : Nat :=
  (u.map (fun a => record_bytes a.2)).foldl max 0

/-- Number of 32-bit words of a union. -/
def union_words (u : List (String × List Member)) : Nat := union_bytes u / 4

/-! ## Helper lemmas -/

theorem version_lt (maj min : Nat) (hmaj : maj < 2 ^ 16) (hmin : min < 2 ^ 16) :
    (maj <<< 16) + min < 2 ^ 32 := by
  rw [Nat.shiftLeft_eq]
  omega

theorem version_eq (maj min : Nat) (hmaj : maj < 2 ^ 16) (hmin : min < 2 ^ 16) :
    X3F_VERSION maj min = 2 ^ 16 * maj + min := by
  unfold X3F_VERSION uint32_t
  rw [Nat.mod_eq_of_lt (version_lt maj min hmaj hmin), Nat.shiftLeft_eq, Nat.mul_comm]

/-! ## Identifiers -/

/-- Claim C1, evaluated on the header: `X3F_PROP`, `X3F_IMA2` and `X3F_CAMF` are
the little-endian 32-bit integers of their ASCII tags, whereas `X3F_IMAG` is
`0x46414d49`, the integer of the bytes 'I','M','A','F', and differs from
`0x47414d49`, the integer of 'I','M','A','G'. -/
theorem X3F_IMAG_is_not_its_ascii_tag :
    X3F_PROP = tag32 'P' 'R' 'O' 'P' ∧
    X3F_IMA2 = tag32 'I' 'M' 'A' '2' ∧
    X3F_CAMF = tag32 'C' 'A' 'M' 'F' ∧
    tag32 'I' 'M' 'A' 'G' = 0x47414d49 ∧
    X3F_IMAG = 0x46414d49 ∧
    X3F_IMAG = tag32 'I' 'M' 'A' 'F' ∧
    X3F_IMAG ≠ tag32 'I' 'M' 'A' 'G' := by
  decide

/-- Claim C2: the file magic `X3F_FOVb` is `0x62564F46`, and each container
magic is the little-endian 32-bit integer of its ASCII tag, `X3F_CMb` being
the tag 'C','M','b' followed by a zero byte. -/
theorem container_magics_are_ascii_tags :
    X3F_FOVb = 0x62564F46 ∧
    X3F_FOVb = tag32 'F' 'O' 'V' 'b' ∧
    X3F_SECd = tag32 'S' 'E' 'C' 'd' ∧
    X3F_SECp = tag32 'S' 'E' 'C' 'p' ∧
    X3F_SECi = tag32 'S' 'E' 'C' 'i' ∧
    X3F_SECc = tag32 'S' 'E' 'C' 'c' ∧
    X3F_CMbP = tag32 'C' 'M' 'b' 'P' ∧
    X3F_CMbT = tag32 'C' 'M' 'b' 'T' ∧
    X3F_CMbM = tag32 'C' 'M' 'b' 'M' ∧
    X3F_CMb = tag24 'C' 'M' 'b' := by
  decide

/-! ## Versions -/

/-- Claim C3: for a major and a minor below `2 ^ 16` the macro `X3F_VERSION`,
computed with an addition, is the 32-bit value `(major << 16) | minor`; the
major is its value shifted right by sixteen and the minor its value masked with
`0xFFFF`; versions 2.0 and 2.1 are `0x00020000` and `0x00020001`. -/
theorem X3F_VERSION_packs_major_minor (maj min : Nat)
    (hmaj : maj < 2 ^ 16) (hmin : min < 2 ^ 16) :
    X3F_VERSION maj min = (maj <<< 16) ||| min ∧
    X3F_VERSION maj min < 2 ^ 32 ∧
    X3F_VERSION maj min >>> 16 = maj ∧
    X3F_VERSION maj min &&& 0xFFFF = min ∧
    X3F_VERSION_2_0 = 0x00020000 ∧
    X3F_VERSION_2_1 = 0x00020001 := by
  have hv := version_eq maj min hmaj hmin
  refine ⟨?_, ?_, ?_, ?_, by decide, by decide⟩
  · rw [hv, Nat.shiftLeft_eq, Nat.mul_comm maj]
    exact Nat.mul_add_lt_is_or hmin maj
  · rw [hv]
    omega
  · rw [hv, Nat.shiftRight_eq_div_pow]
    omega
  · rw [hv]
    show (2 ^ 16 * maj + min) &&& (2 ^ 16 - 1) = min
    rw [Nat.and_pow_two_sub_one_eq_mod]
    omega

/-- Witness of claim C3 at version 2.3. -/
theorem X3F_VERSION_packs_major_minor_witness :
    (2 < 2 ^ 16 ∧ 3 < 2 ^ 16) ∧
    (X3F_VERSION 2 3 = (2 <<< 16) ||| 3 ∧
     X3F_VERSION 2 3 < 2 ^ 32 ∧
     X3F_VERSION 2 3 >>> 16 = 2 ∧
     X3F_VERSION 2 3 &&& 0xFFFF = 3 ∧
     X3F_VERSION_2_0 = 0x00020000 ∧
     X3F_VERSION_2_1 = 0x00020001) :=
  ⟨⟨by decide, by decide⟩,
   X3F_VERSION_packs_major_minor 2 3 (by decide) (by decide)⟩

/-! ## Image tags -/

/-- Claim C4: each image tag constant is `(type << 16) + format` for the type
and format pair that the data model gives it. -/
theorem image_tags_are_type_format :
    X3F_IMAGE_THUMB_PLAIN = type_format 2 3 ∧
    X3F_IMAGE_THUMB_HUFFMAN = type_format 2 11 ∧
    X3F_IMAGE_THUMB_JPEG = type_format 2 18 ∧
    X3F_IMAGE_RAW_HUFFMAN_10BIT = type_format 3 6 ∧
    X3F_IMAGE_RAW_MERRILL = type_format 1 30 ∧
    X3F_IMAGE_RAW_QUATTRO = type_format 1 35 ∧
    X3F_IMAGE_RAW_HUFFMAN_X530 = type_format 3 5 := by
  decide

/-- Claim C5 fails as stated: `X3F_IMAGE_RAW_TRUE` is a tag the header defines
and it is none of the seven tags of the data model, so the two sets differ. -/
theorem X3F_IMAGE_RAW_TRUE_outside_data_model :
    X3F_IMAGE_RAW_TRUE ∈ image_tags ∧
    X3F_IMAGE_RAW_TRUE ∉ spec_image_tags ∧
    ¬ (∀ t, t ∈ image_tags ↔ t ∈ spec_image_tags) := by
  refine ⟨by decide, by decide, fun h => ?_⟩
  exact absurd ((h X3F_IMAGE_RAW_TRUE).1 (by decide)) (by decide)

/-- Claim C5 as amended: the tags the header defines are the seven tags of the
data model together with `X3F_IMAGE_RAW_TRUE`, the tag of type 3 and format 30;
every one of the seven is defined, and a defined tag is one of the seven or is
`X3F_IMAGE_RAW_TRUE`. -/
theorem image_tags_are_data_model_and_RAW_TRUE :
    X3F_IMAGE_RAW_TRUE = type_format 3 30 ∧
    spec_image_tags.length = 7 ∧
    image_tags.length = 8 ∧
    ∀ t, t ∈ image_tags ↔ (t ∈ spec_image_tags ∨ t = X3F_IMAGE_RAW_TRUE) := by
  refine ⟨by decide, by decide, by decide, fun t => ?_⟩
  have e1 : image_tags =
      [0x20003, 0x2000b, 0x20012, 0x30005, 0x30006, 0x3001e, 0x1001e, 0x10023] := by
    decide
  have e2 : spec_image_tags =
      [0x20003, 0x2000b, 0x20012, 0x30006, 0x1001e, 0x10023, 0x30005] := by
    decide
  have e3 : X3F_IMAGE_RAW_TRUE = 0x3001e := by decide
  rw [e1, e2, e3]
  simp only [List.mem_cons, List.mem_singleton, List.not_mem_nil, or_false]
  omega

/-! ## Result codes -/

/-- Claim C6 fails as stated: the taxonomy has nine error kinds and
`x3f_return_t` has five values, one of them the success value, so no assignment
gives each kind a value of its own. -/
theorem x3f_return_t_cannot_carry_nine_kinds :
    Fintype.card SpecErrorKind = 9 ∧
    Fintype.card x3f_return_t = 5 ∧
    ¬ ∃ f : SpecErrorKind → x3f_return_t,
        Function.Injective f ∧ ∀ k, f k ≠ x3f_return_t.X3F_OK := by
  refine ⟨by decide, by decide, ?_⟩
  rintro ⟨f, hf, -⟩
  have h := Fintype.card_le_of_injective f hf
  have h9 : Fintype.card SpecErrorKind = 9 := by decide
  have h5 : Fintype.card x3f_return_t = 5 := by decide
  omega

/-- Claim C6 as amended: `x3f_return_t` has five values, the success value
`X3F_OK = 0` and the four error codes `X3F_ARGUMENT_ERROR = 1`,
`X3F_INFILE_ERROR = 2`, `X3F_OUTFILE_ERROR = 3` and `X3F_INTERNAL_ERROR = 4`;
the five values are pairwise distinct and every code other than `X3F_OK` is
non-zero. -/
theorem x3f_return_t_values :
    Fintype.card x3f_return_t = 5 ∧
    [x3f_return_t.X3F_OK, x3f_return_t.X3F_ARGUMENT_ERROR,
      x3f_return_t.X3F_INFILE_ERROR, x3f_return_t.X3F_OUTFILE_ERROR,
      x3f_return_t.X3F_INTERNAL_ERROR].map x3f_return_t.val = [0, 1, 2, 3, 4] ∧
    Function.Injective x3f_return_t.val ∧
    ∀ r : x3f_return_t, r = x3f_return_t.X3F_OK ∨ (1 ≤ r.val ∧ r.val ≤ 4) := by
  refine ⟨by decide, by decide, ?_, ?_⟩
  · intro a b h
    cases a <;> cases b <;> first | rfl | (exact absurd h (by decide))
  · intro r
    cases r <;> decide

/-! ## CAMF headers -/

/-- Claim C7: the headers of CAMF type 2, type 4 and type 5 are each four
32-bit fields in the order of the data model, and in the union of `x3f_camf_t`
they lie over the four words `val0` to `val3` of `x3f_camf_typeN_t`; so
`decoded_data_size` is word 0 and `decode_bias` word 1 in type 4 and in type 5,
and `crypt_key` is word 3. -/
theorem camf_type_headers_overlay_typeN :
    x3f_camf_header_union.map (·.1) = ["tN", "t2", "t4", "t5"] ∧
    names x3f_camf_type2_t =
      ["reserved", "infotype", "infotype_version", "crypt_key"] ∧
    names x3f_camf_type4_t =
      ["decoded_data_size", "decode_bias", "block_size", "block_count"] ∧
    names x3f_camf_type5_t =
      ["decoded_data_size", "decode_bias", "unknown2", "unknown3"] ∧
    x3f_camf_header_union.map (fun a => a.2.map (fun m => (m.type, m.count))) =
      List.replicate 4 (List.replicate 4 (CType.uint32_t, 1)) ∧
    x3f_camf_header_union.map (fun a => (offsets a.2).map (·.2)) =
      List.replicate 4 [0, 4, 8, 12] ∧
    (names x3f_camf_type2_t).map (overlaid x3f_camf_type2_t) =
      [some "val0", some "val1", some "val2", some "val3"] ∧
    (names x3f_camf_type4_t).map (overlaid x3f_camf_type4_t) =
      [some "val0", some "val1", some "val2", some "val3"] ∧
    (names x3f_camf_type5_t).map (overlaid x3f_camf_type5_t) =
      [some "val0", some "val1", some "val2", some "val3"] ∧
    wordof x3f_camf_type4_t "decoded_data_size" = some 0 ∧
    wordof x3f_camf_type5_t "decoded_data_size" = some 0 ∧
    wordof x3f_camf_type4_t "decode_bias" = some 1 ∧
    wordof x3f_camf_type5_t "decode_bias" = some 1 ∧
    wordof x3f_camf_type2_t "crypt_key" = some 3 := by
  decide

/-! ## Extended data -/

/-- Claim C8: the extended-data type tags are 0 for unused and 1 to 10 for
exposure, contrast, shadow, highlight, saturation, sharpness, red, green, blue
and fill light, in that order; each tag fits in a byte; the header holds a
16-byte unique identifier, a 32-byte white-balance label and two arrays of 32
entries, one of bytes and one of floats. -/
theorem extended_types_and_header_arrays :
    Fintype.card x3f_extended_types_t = 11 ∧
    [x3f_extended_types_t.X3F_EXT_TYPE_NONE,
      x3f_extended_types_t.X3F_EXT_TYPE_EXPOSURE_ADJUST,
      x3f_extended_types_t.X3F_EXT_TYPE_CONTRAST_ADJUST,
      x3f_extended_types_t.X3F_EXT_TYPE_SHADOW_ADJUST,
      x3f_extended_types_t.X3F_EXT_TYPE_HIGHLIGHT_ADJUST,
      x3f_extended_types_t.X3F_EXT_TYPE_SATURATION_ADJUST,
      x3f_extended_types_t.X3F_EXT_TYPE_SHARPNESS_ADJUST,
      x3f_extended_types_t.X3F_EXT_TYPE_RED_ADJUST,
      x3f_extended_types_t.X3F_EXT_TYPE_GREEN_ADJUST,
      x3f_extended_types_t.X3F_EXT_TYPE_BLUE_ADJUST,
      x3f_extended_types_t.X3F_EXT_TYPE_FILL_LIGHT_ADJUST].map
        x3f_extended_types_t.val = [0, 1, 2, 3, 4, 5, 6, 7, 8, 9, 10] ∧
    (∀ t : x3f_extended_types_t, t.val < 2 ^ 8) ∧
    SIZE_UNIQUE_IDENTIFIER = 16 ∧ SIZE_WHITE_BALANCE = 32 ∧ NUM_EXT_DATA = 32 ∧
    member x3f_header_t "unique_identifier" =
      some ⟨"unique_identifier", CType.uint8_t, 16, true⟩ ∧
    member x3f_header_t "white_balance" =
      some ⟨"white_balance", CType.char, 32, true⟩ ∧
    member x3f_header_t "extended_types" =
      some ⟨"extended_types", CType.uint8_t, 32, true⟩ ∧
    member x3f_header_t "extended_data" =
      some ⟨"extended_data", CType.float, 32, true⟩ ∧
    (member x3f_header_t "unique_identifier").bind Member.bytes = some 16 ∧
    (member x3f_header_t "white_balance").bind Member.bytes = some 32 := by
  refine ⟨by decide, by decide, ?_, by decide, by decide, by decide, by decide,
    by decide, by decide, by decide, by decide, by decide⟩
  intro t
  cases t <;> decide

/-! ## Dispatch -/

/-- Claim C9: the thirteen identifiers are pairwise distinct and the eight
image tags are pairwise distinct, so a value matches at most one identifier and
at most one image tag. -/
theorem identifiers_and_image_tags_distinct :
    identifiers.length = 13 ∧ identifiers.Nodup ∧
    image_tags.length = 8 ∧ image_tags.Nodup ∧
    ∀ v : Nat, identifiers.count v ≤ 1 ∧ image_tags.count v ≤ 1 := by
  have h1 : identifiers.Nodup := by decide
  have h2 : image_tags.Nodup := by decide
  exact ⟨by decide, h1, by decide, h2, fun v =>
    ⟨List.nodup_iff_count_le_one.mp h1 v, List.nodup_iff_count_le_one.mp h2 v⟩⟩

/-! ## Section header sizes -/

/-- Claim C10: each section header size is four bytes times the number of
32-bit fields read from the file, the two common fields `identifier` and
`version` included: 24 for the property list with its four fields, 28 for the
image with its five fields, 28 for CAMF with `type` and the four words of its
type-specific header. -/
theorem header_sizes_count_file_words :
    names (file_words x3f_directory_entry_header_t) = ["identifier", "version"] ∧
    names (file_words x3f_property_list_t) =
      ["num_properties", "character_format", "reserved", "total_length"] ∧
    names (file_words x3f_image_data_t) =
      ["type", "format", "columns", "rows", "row_stride"] ∧
    names (file_words x3f_camf_t) = ["type"] ∧
    union_words x3f_camf_header_union = 4 ∧
    X3F_PROPERTY_LIST_HEADER_SIZE = 24 ∧
    X3F_PROPERTY_LIST_HEADER_SIZE =
      4 * ((file_words x3f_directory_entry_header_t).length +
        (file_words x3f_property_list_t).length) ∧
    X3F_IMAGE_HEADER_SIZE = 28 ∧
    X3F_IMAGE_HEADER_SIZE =
      4 * ((file_words x3f_directory_entry_header_t).length +
        (file_words x3f_image_data_t).length) ∧
    X3F_CAMF_HEADER_SIZE = 28 ∧
    X3F_CAMF_HEADER_SIZE =
      4 * ((file_words x3f_directory_entry_header_t).length +
        (file_words x3f_camf_t).length + union_words x3f_camf_header_union) := by
  decide

end X3F
